import Mathlib

/-!
Shallow embedding of the token-accounting and conversation-wrapper core of
`ConnectOpenAI.py` (class `ConnectOpenAI`): the token estimator
`num_tokens_from_messages`, the moderation wrapper `moderate_message`, and the
story-generation wrapper `create_story`.

External collaborators (the tiktoken encoder, the moderation endpoint and the
chat-completion endpoint) are passed in as function parameters, mirroring the
spec's treatment of them as opaque collaborators.  Python dicts are embedded
as association lists in insertion order, Python ints as `Int`, and Python
exceptions as explicit error values.
-/

/-- A chat message is a Python dict of string keys and string values, embedded
as an association list in insertion order (the order `dict.items()` yields). -/
abbrev Message := List (String × String)

/-- The error raised by `num_tokens_from_messages` for a model it does not
handle (the `NotImplementedError` at lines 40-43 of `ConnectOpenAI.py`). -/
inductive TokenError where
  | unsupportedModel
deriving DecidableEq

/-- The accumulation loop of `num_tokens_from_messages`
(`ConnectOpenAI.py` lines 44-50): starting from 0, add `tokens_per_message`
once per message, then for every key/value pair of the message add the
encoder's token count of the value, and add `tokens_per_name` whenever the key
is `"name"`.  `enc` is the collaborator's `len(encoding.encode(·))`. -/
def sum_messages (enc : String → Nat) (tokens_per_message tokens_per_name : Int)
    (messages : List Message) : Int :=
  messages.foldl
    (fun num_tokens message =>
      message.foldl
        (fun acc kv =>
          acc + (enc kv.2 : Int) + (if kv.1 = "name" then tokens_per_name else 0))
        (num_tokens + tokens_per_message))
    0

/-- `ConnectOpenAI.num_tokens_from_messages` (lines 20-52).  `encFor model` is
the token-count function of the encoding that `tiktoken` resolves for `model`
(with its silent `cl100k_base` fallback folded in, since the fallback is
non-fatal and changes no control flow).  The rolling aliases `"gpt-3.5-turbo"`
and `"gpt-4"` recurse once onto their dated snapshots; the two snapshots apply
their per-message / per-name constants; any other model raises. -/
def num_tokens_from_messages (encFor : String → String → Nat)
    (messages : List Message) (model : String) : Except TokenError Int :=
  let encoding := encFor model
  if model = "gpt-3.5-turbo" then
    num_tokens_from_messages encFor messages "gpt-3.5-turbo-0301"
  else if model = "gpt-4" then
    num_tokens_from_messages encFor messages "gpt-4-0314"
  else if model = "gpt-3.5-turbo-0301" then
    Except.ok (sum_messages encoding 4 (-1) messages + 3)
  else if model = "gpt-4-0314" then
    Except.ok (sum_messages encoding 3 1 messages + 3)
  else
    Except.error TokenError.unsupportedModel
termination_by (if model = "gpt-3.5-turbo" ∨ model = "gpt-4" then 1 else 0)
decreasing_by
  · simp_all
  · simp_all

/-- `ConnectOpenAI.moderate_message` (lines 54-78).  `moderationApi text` is
the collaborator's flag for `text`.  The second component counts how many
calls were made to the moderation collaborator. -/
def moderate_message (moderationApi : String → Bool) (user_message : String)
    (test : Bool) (test_flagged : Bool) : Bool × Nat :=
  if test then
    (test_flagged, 0)
  else
    (moderationApi user_message, 1)

/-- Modelled from the spec: the fixed example story text returned in test mode
lives in `variables.py`, which is not among the sources; the spec only says it
is a fixed text, so its value is arbitrary here. -/
def example_story : String := "Once upon a time there was an example story."

/-- Whether `needle` starts `haystack`, on character lists. -/
def chars_start (needle haystack : List Char) : Bool :=
  match needle, haystack with
  | [], _ => true
  | _ :: _, [] => false
  | n :: ns, h :: hs => n = h && chars_start ns hs

/-- Whether `needle` occurs contiguously inside `haystack`, on character
lists. -/
def chars_contain (needle haystack : List Char) : Bool :=
  chars_start needle haystack ||
    match haystack with
    | [] => false
    | _ :: rest => chars_contain needle rest

/-- Python's substring test `needle in haystack` on strings. -/
def py_str_in (needle haystack : String) : Bool :=
  chars_contain needle.data haystack.data

/-- The response shape `create_story` reads from the chat-completion
collaborator: generated text, finish reason, and reported total token usage. -/
structure ChatResponse where
  content : String
  finish_reason : String
  total_tokens : Int
deriving DecidableEq

/-- The mutable fields of a `ConnectOpenAI` instance that `create_story`
touches: the configured model and the two usage counters (both 0 at
construction, lines 17-18). -/
structure ClientState where
  model : String
  estimated_tokens : Int
  total_tokens : Int
deriving DecidableEq

/-- What a `create_story` call produces besides the state: the returned
`(story, finish_reason)` pair, or the propagated exception of the token
estimator or of the remote chat-completion call. -/
inductive StoryOutcome where
  | ok (story finish_reason : String)
  | estimateError (e : TokenError)
  | apiError
deriving DecidableEq

/-- The fresh message list `create_story` builds for each non-test call
(lines 109-112): exactly one system message and one user message. -/
def build_messages (instruction user_message : String) : List Message :=
  [[("role", "system"), ("content", instruction)],
   [("role", "user"), ("content", user_message)]]

/-- `ConnectOpenAI.create_story` (lines 80-129).  `api msgs` is the
chat-completion collaborator's response for the payload `msgs`, `none`
standing for a raised remote error.  In test mode the network is bypassed:
the finish reason is normalized by the check
`any(test_reason in reason for reason in ('stop', 'length', 'content_filter'))`
— a substring test — and the example story is returned with the state
untouched (the `time.sleep` delay has no observable effect here).  Otherwise
`estimated_tokens` is overwritten with the estimate of the fresh two-message
payload, the collaborator is called, and on success `total_tokens` is
overwritten with the reported usage. -/
def create_story (encFor : String → String → Nat)
    (api : List Message → Option ChatResponse) (s : ClientState)
    (user_message instruction : String) (test : Bool) (test_reason : String) :
    ClientState × StoryOutcome :=
  if test then
    let reason :=
      if !(py_str_in test_reason "stop" || py_str_in test_reason "length" ||
           py_str_in test_reason "content_filter") then
        "stop"
      else
        test_reason
    (s, StoryOutcome.ok example_story reason)
  else
    let messages := build_messages instruction user_message
    match num_tokens_from_messages encFor messages s.model with
    | Except.error e => (s, StoryOutcome.estimateError e)
    | Except.ok n =>
      let s1 := { s with estimated_tokens := n }
      match api messages with
      | none => (s1, StoryOutcome.apiError)
      | some resp =>
        ({ s1 with total_tokens := resp.total_tokens },
         StoryOutcome.ok resp.content resp.finish_reason)

/-- A concrete stand-in encoder for witnesses and counterexamples: every
model resolves to the encoding that counts one token per character. -/
def encLen : String → String → Nat := fun _ s => s.length

/-- A chat-completion stub whose reply text records whether the payload it
received held exactly two messages; used to observe the payload size. -/
def apiProbe : List Message → Option ChatResponse := fun msgs =>
  some ⟨if msgs.length = 2 then "two-message request" else "longer request",
        "stop", 7⟩

/-- A chat-completion stub that always raises (a remote failure on every
call). -/
def apiDown : List Message → Option ChatResponse := fun _ => none

/-- Unfolding: the dated snapshot `"gpt-3.5-turbo-0301"` applies the constants
`tokens_per_message = 4`, `tokens_per_name = -1` directly. -/
lemma nt_turbo_0301 (encFor : String → String → Nat) (messages : List Message) :
    num_tokens_from_messages encFor messages "gpt-3.5-turbo-0301" =
      Except.ok (sum_messages (encFor "gpt-3.5-turbo-0301") 4 (-1) messages + 3) := by
  rw [num_tokens_from_messages]
  simp

/-- Unfolding: the dated snapshot `"gpt-4-0314"` applies the constants
`tokens_per_message = 3`, `tokens_per_name = 1` directly. -/
lemma nt_gpt4_0314 (encFor : String → String → Nat) (messages : List Message) :
    num_tokens_from_messages encFor messages "gpt-4-0314" =
      Except.ok (sum_messages (encFor "gpt-4-0314") 3 1 messages + 3) := by
  rw [num_tokens_from_messages]
  simp

/-- Unfolding: the rolling alias `"gpt-4"` redirects to `"gpt-4-0314"`. -/
lemma nt_gpt4 (encFor : String → String → Nat) (messages : List Message) :
    num_tokens_from_messages encFor messages "gpt-4" =
      num_tokens_from_messages encFor messages "gpt-4-0314" := by
  rw [num_tokens_from_messages]
  simp

/-- Unfolding: the rolling alias `"gpt-3.5-turbo"` redirects to
`"gpt-3.5-turbo-0301"`. -/
lemma nt_turbo (encFor : String → String → Nat) (messages : List Message) :
    num_tokens_from_messages encFor messages "gpt-3.5-turbo" =
      num_tokens_from_messages encFor messages "gpt-3.5-turbo-0301" := by
  rw [num_tokens_from_messages]
  simp

/-- The inner per-message fold is the initial value plus the sum of the
per-item contributions. -/
lemma inner_fold_eq (enc : String → Nat) (tpn : Int) (m : Message) :
    ∀ a : Int,
      m.foldl
        (fun acc kv =>
          acc + (enc kv.2 : Int) + (if kv.1 = "name" then tpn else 0)) a
        = a + (m.map
            (fun kv => (enc kv.2 : Int) + (if kv.1 = "name" then tpn else 0))).sum := by
  induction m with
  | nil => intro a; simp
  | cons kv rest ih => intro a; simp [ih]; ring

/-- Normal form of the accumulation loop: the sum over messages of
(per-message overhead plus the per-item contributions of that message). -/
lemma sum_messages_eq (enc : String → Nat) (tpm tpn : Int) (messages : List Message) :
    sum_messages enc tpm tpn messages
      = (messages.map (fun m =>
          tpm + (m.map
            (fun kv => (enc kv.2 : Int) + (if kv.1 = "name" then tpn else 0))).sum)).sum := by
  suffices h : ∀ a : Int,
      messages.foldl
        (fun num_tokens message =>
          message.foldl
            (fun acc kv =>
              acc + (enc kv.2 : Int) + (if kv.1 = "name" then tpn else 0))
            (num_tokens + tpm)) a
        = a + (messages.map (fun m =>
            tpm + (m.map
              (fun kv => (enc kv.2 : Int) + (if kv.1 = "name" then tpn else 0))).sum)).sum by
    simpa [sum_messages] using h 0
  induction messages with
  | nil => intro a; simp
  | cons m rest ih =>
    intro a
    rw [List.foldl_cons, inner_fold_eq, ih]
    simp
    ring

/-- A successful or failed non-test `create_story` call stores the fresh
estimate in `estimated_tokens` and leaves the configured model unchanged. -/
lemma create_story_live_first (encFor : String → String → Nat)
    (api : List Message → Option ChatResponse) (s : ClientState)
    (user_message instruction : String) (n : Int)
    (h : num_tokens_from_messages encFor (build_messages instruction user_message)
          s.model = Except.ok n) :
    (create_story encFor api s user_message instruction false "stop").1.estimated_tokens = n ∧
    (create_story encFor api s user_message instruction false "stop").1.model = s.model := by
  simp [create_story, h]
  cases api (build_messages instruction user_message) <;> simp

/-- C1 counterexample: with an encoder that maps `"hi"` to 2 tokens (one per
character) the gpt-4-0314 estimate of `{role: user, content: "hi"}` is 12,
not the claimed 8, because the loop at lines 47-48 encodes every field value,
the role value `"user"` (4 tokens here) included. -/
theorem c1_counterexample :
    encLen "gpt-4-0314" "hi" = 2 ∧
    num_tokens_from_messages encLen [[("role", "user"), ("content", "hi")]]
        "gpt-4-0314" = Except.ok 12 ∧
    ¬ num_tokens_from_messages encLen [[("role", "user"), ("content", "hi")]]
        "gpt-4-0314" = Except.ok 8 := by
  refine ⟨by decide, ?_, ?_⟩
  · rw [nt_gpt4_0314]; simp [sum_messages, encLen]; decide
  · rw [nt_gpt4_0314]; simp [sum_messages, encLen]; decide

/-- C1 (amended): for the gpt-4-0314 rule, a single message
`{role: user, content: "hi"}` whose content encodes to 2 tokens is estimated
at 3 (per-message overhead) + the encoding of the role value `"user"` + 2
(content tokens) + 3 (priming); the role value is encoded along with the
content, so the total is 8 plus the role value's token count. -/
theorem c1_amended_role_also_encoded (encFor : String → String → Nat)
    (h : encFor "gpt-4-0314" "hi" = 2) :
    num_tokens_from_messages encFor [[("role", "user"), ("content", "hi")]]
        "gpt-4-0314"
      = Except.ok (3 + (encFor "gpt-4-0314" "user" : Int) + 2 + 3) := by
  rw [nt_gpt4_0314]
  simp [sum_messages, h]

/-- C1 witness: the amended statement evaluated at the one-token-per-character
encoder, where the role value `"user"` costs 4 tokens and the total is 12. -/
theorem c1_amended_witness :
    encLen "gpt-4-0314" "hi" = 2 ∧
    num_tokens_from_messages encLen [[("role", "user"), ("content", "hi")]]
        "gpt-4-0314"
      = Except.ok (3 + (encLen "gpt-4-0314" "user" : Int) + 2 + 3) :=
  ⟨by decide, c1_amended_role_also_encoded encLen (by decide)⟩

/-- C2 counterexample: under the turbo-0301 rule with the
one-token-per-character encoder, `{role: user, content: "hi"}` is estimated
at 13, and the same message with `name: "bob"` added at 15 — larger, not one
smaller, because the name value's own 3 tokens outweigh the -1 adjustment. -/
theorem c2_counterexample :
    num_tokens_from_messages encLen [[("role", "user"), ("content", "hi")]]
        "gpt-3.5-turbo-0301" = Except.ok 13 ∧
    num_tokens_from_messages encLen
        [[("role", "user"), ("content", "hi"), ("name", "bob")]]
        "gpt-3.5-turbo-0301" = Except.ok 15 ∧
    (15 : Int) ≠ 13 - 1 := by
  refine ⟨?_, ?_, by decide⟩
  · rw [nt_turbo_0301]; simp [sum_messages, encLen]; decide
  · rw [nt_turbo_0301]; simp [sum_messages, encLen]; decide

/-- C2 (amended): for the turbo-0301 accounting rule, adding a `name` field
with value `v` to any message of the sequence changes the total estimate by
the encoder's token count of `v` minus one (the -1 name adjustment), all
other fields equal; the total drops by exactly one only when the name value
encodes to 0 tokens. -/
theorem c2_amended_name_delta (encFor : String → String → Nat)
    (pre post : List Message) (m : Message) (v : String) :
    num_tokens_from_messages encFor (pre ++ (m ++ [("name", v)]) :: post)
        "gpt-3.5-turbo-0301"
      = Except.map
          (fun t => t + (encFor "gpt-3.5-turbo-0301" v : Int) - 1)
          (num_tokens_from_messages encFor (pre ++ m :: post)
            "gpt-3.5-turbo-0301") := by
  rw [nt_turbo_0301, nt_turbo_0301]
  simp [Except.map, sum_messages_eq]
  ring

/-- C3: the test-mode finish-reason check of `create_story` (line 101) is a
substring test, so the out-of-set value `"top"` — a substring of `"stop"` —
is returned unchanged instead of being normalized to `"stop"` as the claim
states; this exhibits the divergence of the code from its intended
normalization. -/
theorem c3_substring_divergence :
    (create_story encLen apiProbe ⟨"gpt-4", 0, 0⟩ "a prompt" "an instruction"
        true "top").2
      = StoryOutcome.ok example_story "top" ∧
    ¬ ("top" = "stop" ∨ "top" = "length" ∨ "top" = "content_filter") := by
  constructor
  · decide
  · decide

/-- C4: for every message sequence and every model identifier other than the
two rolling aliases and the two dated snapshots, token estimation fails with
the unsupported-model error instead of returning a count. -/
theorem c4_unknown_model_errors (encFor : String → String → Nat)
    (messages : List Message) (model : String)
    (h1 : model ≠ "gpt-3.5-turbo") (h2 : model ≠ "gpt-4")
    (h3 : model ≠ "gpt-3.5-turbo-0301") (h4 : model ≠ "gpt-4-0314") :
    num_tokens_from_messages encFor messages model
      = Except.error TokenError.unsupportedModel := by
  rw [num_tokens_from_messages]
  simp [h1, h2, h3, h4]

/-- C4 witness: estimation for `"made-up-model-9000"` on the empty sequence
fails with the unsupported-model error. -/
theorem c4_witness :
    "made-up-model-9000" ≠ "gpt-3.5-turbo" ∧
    num_tokens_from_messages encLen [] "made-up-model-9000"
      = Except.error TokenError.unsupportedModel :=
  ⟨by decide,
   c4_unknown_model_errors encLen [] "made-up-model-9000"
     (by decide) (by decide) (by decide) (by decide)⟩

/-- C5: for every encoder and message sequence, the rolling aliases
`"gpt-3.5-turbo"` and `"gpt-4"` estimate exactly as their latest dated
snapshots `"gpt-3.5-turbo-0301"` and `"gpt-4-0314"`, and each snapshot
computes its estimate directly — so the recursive resolution is exactly one
redirection level deep. -/
theorem c5_alias_redirect (encFor : String → String → Nat)
    (messages : List Message) :
    num_tokens_from_messages encFor messages "gpt-3.5-turbo"
        = num_tokens_from_messages encFor messages "gpt-3.5-turbo-0301" ∧
    num_tokens_from_messages encFor messages "gpt-4"
        = num_tokens_from_messages encFor messages "gpt-4-0314" ∧
    num_tokens_from_messages encFor messages "gpt-3.5-turbo-0301"
        = Except.ok (sum_messages (encFor "gpt-3.5-turbo-0301") 4 (-1) messages + 3) ∧
    num_tokens_from_messages encFor messages "gpt-4-0314"
        = Except.ok (sum_messages (encFor "gpt-4-0314") 3 1 messages + 3) :=
  ⟨nt_turbo encFor messages, nt_gpt4 encFor messages,
   nt_turbo_0301 encFor messages, nt_gpt4_0314 encFor messages⟩

/-- C6: for every supported model identifier — the two rolling aliases and
the two dated snapshots — the estimate of the empty message sequence is
exactly 3, the fixed priming constant for the assistant reply header. -/
theorem c6_empty_messages_three (encFor : String → String → Nat) (model : String)
    (h : model = "gpt-3.5-turbo" ∨ model = "gpt-4" ∨
         model = "gpt-3.5-turbo-0301" ∨ model = "gpt-4-0314") :
    num_tokens_from_messages encFor [] model = Except.ok 3 := by
  rcases h with h | h | h | h <;> subst h
  · rw [nt_turbo, nt_turbo_0301]; simp [sum_messages]
  · rw [nt_gpt4, nt_gpt4_0314]; simp [sum_messages]
  · rw [nt_turbo_0301]; simp [sum_messages]
  · rw [nt_gpt4_0314]; simp [sum_messages]

/-- C6 witness: the empty sequence estimated for `"gpt-4"` gives 3. -/
theorem c6_witness :
    ("gpt-4" = "gpt-3.5-turbo" ∨ "gpt-4" = "gpt-4" ∨
     "gpt-4" = "gpt-3.5-turbo-0301" ∨ "gpt-4" = "gpt-4-0314") ∧
    num_tokens_from_messages encLen [] "gpt-4" = Except.ok 3 :=
  ⟨by decide, c6_empty_messages_three encLen "gpt-4" (by decide)⟩

/-- C7: for every moderation collaborator, input text and boolean flag,
`moderate_message` in test mode returns exactly the caller-supplied flag and
performs zero calls to the moderation collaborator. -/
theorem c7_moderate_test_mode (moderationApi : String → Bool)
    (user_message : String) (test_flagged : Bool) :
    moderate_message moderationApi user_message true test_flagged
      = (test_flagged, 0) := rfl

/-- C8: after every successful non-test `create_story` call, regardless of
the previous counter values in the client state, the stored `total_tokens`
equals exactly the usage reported by the generation collaborator for that
call, and the returned pair is the collaborator's text and finish reason. -/
theorem c8_total_tokens_overwrite (encFor : String → String → Nat)
    (api : List Message → Option ChatResponse) (s : ClientState)
    (user_message instruction : String) (n : Int) (resp : ChatResponse)
    (h1 : num_tokens_from_messages encFor (build_messages instruction user_message)
            s.model = Except.ok n)
    (h2 : api (build_messages instruction user_message) = some resp) :
    (create_story encFor api s user_message instruction false "stop").1.total_tokens
        = resp.total_tokens ∧
    (create_story encFor api s user_message instruction false "stop").2
        = StoryOutcome.ok resp.content resp.finish_reason := by
  simp [create_story, h1, h2]

/-- C8 witness: starting from counters (5, 99), a successful call whose
collaborator reports 7 total tokens leaves `total_tokens = 7` — overwritten,
not added to 99. -/
theorem c8_witness :
    num_tokens_from_messages encLen (build_messages "sys" "hi") "gpt-4"
        = Except.ok 24 ∧
    apiProbe (build_messages "sys" "hi")
        = some ⟨"two-message request", "stop", 7⟩ ∧
    (create_story encLen apiProbe ⟨"gpt-4", 5, 99⟩ "hi" "sys" false
        "stop").1.total_tokens = (7 : Int) ∧
    (create_story encLen apiProbe ⟨"gpt-4", 5, 99⟩ "hi" "sys" false "stop").2
        = StoryOutcome.ok "two-message request" "stop" := by
  have h1 : num_tokens_from_messages encLen (build_messages "sys" "hi") "gpt-4"
      = Except.ok 24 := by
    rw [nt_gpt4, nt_gpt4_0314]
    simp [sum_messages, build_messages, encLen]
    decide
  exact ⟨h1, rfl,
    c8_total_tokens_overwrite encLen apiProbe ⟨"gpt-4", 5, 99⟩ "hi" "sys" 24
      ⟨"two-message request", "stop", 7⟩ h1 rfl⟩

/-- C9 counterexample: two sequential non-test `create_story` calls with the
same instruction and prompt.  The probe collaborator records the payload size
in the story text: the second call's payload again holds exactly two messages
("two-message request"), the stored estimate stays 24 instead of growing,
and the estimate over the claimed accumulated three-message history (system
plus two user turns) would be 33 ≠ 24 — so no conversation accumulates. -/
theorem c9_counterexample :
    (create_story encLen apiProbe
        ((create_story encLen apiProbe ⟨"gpt-4", 0, 0⟩ "hi" "sys" false
            "stop").1)
        "hi" "sys" false "stop")
      = (⟨"gpt-4", 24, 7⟩, StoryOutcome.ok "two-message request" "stop") ∧
    (create_story encLen apiProbe ⟨"gpt-4", 0, 0⟩ "hi" "sys" false
        "stop").1.estimated_tokens = 24 ∧
    num_tokens_from_messages encLen
        [[("role", "system"), ("content", "sys")],
         [("role", "user"), ("content", "hi")],
         [("role", "user"), ("content", "hi")]] "gpt-4" = Except.ok 33 ∧
    (24 : Int) ≠ 33 := by
  have h1 : num_tokens_from_messages encLen (build_messages "sys" "hi") "gpt-4"
      = Except.ok 24 := by
    rw [nt_gpt4, nt_gpt4_0314]
    simp [sum_messages, build_messages, encLen]
    decide
  have h1l : num_tokens_from_messages encLen
      [[("role", "system"), ("content", "sys")],
       [("role", "user"), ("content", "hi")]] "gpt-4" = Except.ok 24 := h1
  have hc : create_story encLen apiProbe ⟨"gpt-4", 0, 0⟩ "hi" "sys" false "stop"
      = (⟨"gpt-4", 24, 7⟩, StoryOutcome.ok "two-message request" "stop") := by
    simp [create_story, build_messages, apiProbe, h1l]
  have hc2 : create_story encLen apiProbe ⟨"gpt-4", 24, 7⟩ "hi" "sys" false "stop"
      = (⟨"gpt-4", 24, 7⟩, StoryOutcome.ok "two-message request" "stop") := by
    simp [create_story, build_messages, apiProbe, h1l]
  refine ⟨?_, ?_, ?_, by decide⟩
  · rw [hc]; exact hc2
  · rw [hc]
  · rw [nt_gpt4, nt_gpt4_0314]; simp [sum_messages, encLen]; decide

/-- C9 (amended): each non-test `create_story` call builds a fresh
two-message payload (one system plus one user message); no conversation
persists on the client, so the second of two sequential calls with the same
inputs stores the same estimate as the first — computed over those two
messages only, not over an accumulated history. -/
theorem c9_amended_fresh_messages (encFor : String → String → Nat)
    (api : List Message → Option ChatResponse) (s : ClientState)
    (user_message instruction : String) (n : Int)
    (h : num_tokens_from_messages encFor (build_messages instruction user_message)
          s.model = Except.ok n) :
    (build_messages instruction user_message).length = 2 ∧
    (create_story encFor api s user_message instruction false
        "stop").1.estimated_tokens = n ∧
    (create_story encFor api
        ((create_story encFor api s user_message instruction false "stop").1)
        user_message instruction false "stop").1.estimated_tokens = n := by
  obtain ⟨he, hm⟩ := create_story_live_first encFor api s user_message instruction n h
  have h2 : num_tokens_from_messages encFor
      (build_messages instruction user_message)
      (create_story encFor api s user_message instruction false "stop").1.model
      = Except.ok n := by rw [hm]; exact h
  exact ⟨by simp [build_messages], he,
    (create_story_live_first encFor api _ user_message instruction n h2).1⟩

/-- C9 witness: the amended statement evaluated on two sequential calls from
a fresh client, both estimating the same fresh two-message payload at 24. -/
theorem c9_amended_witness :
    num_tokens_from_messages encLen (build_messages "sys" "hi") "gpt-4"
        = Except.ok 24 ∧
    ((build_messages "sys" "hi").length = 2 ∧
     (create_story encLen apiProbe ⟨"gpt-4", 0, 0⟩ "hi" "sys" false
         "stop").1.estimated_tokens = 24 ∧
     (create_story encLen apiProbe
         ((create_story encLen apiProbe ⟨"gpt-4", 0, 0⟩ "hi" "sys" false
             "stop").1)
         "hi" "sys" false "stop").1.estimated_tokens = 24) := by
  have h1 : num_tokens_from_messages encLen (build_messages "sys" "hi") "gpt-4"
      = Except.ok 24 := by
    rw [nt_gpt4, nt_gpt4_0314]
    simp [sum_messages, build_messages, encLen]
    decide
  exact ⟨h1,
    c9_amended_fresh_messages encLen apiProbe ⟨"gpt-4", 0, 0⟩ "hi" "sys" 24 h1⟩

/-- C10: a non-test `create_story` call is not atomic on remote failure: when
the estimator succeeds with `n` and the generation collaborator then raises,
the call returns with `estimated_tokens` already overwritten to `n` while
`total_tokens` still holds its previous value, and the failure is reported. -/
theorem c10_non_atomic_failure (encFor : String → String → Nat)
    (api : List Message → Option ChatResponse) (s : ClientState)
    (user_message instruction : String) (n : Int)
    (h1 : num_tokens_from_messages encFor (build_messages instruction user_message)
            s.model = Except.ok n)
    (h2 : api (build_messages instruction user_message) = none) :
    create_story encFor api s user_message instruction false "stop"
      = ({ s with estimated_tokens := n }, StoryOutcome.apiError) := by
  simp [create_story, h1, h2]

/-- C10 witness: with counters (5, 99) and a collaborator that raises, the
call ends with `estimated_tokens = 24` (the fresh estimate) and
`total_tokens = 99` (the last successful value), reporting the failure. -/
theorem c10_witness :
    num_tokens_from_messages encLen (build_messages "sys" "hi") "gpt-4"
        = Except.ok 24 ∧
    apiDown (build_messages "sys" "hi") = none ∧
    create_story encLen apiDown ⟨"gpt-4", 5, 99⟩ "hi" "sys" false "stop"
      = (⟨"gpt-4", 24, 99⟩, StoryOutcome.apiError) := by
  have h1 : num_tokens_from_messages encLen (build_messages "sys" "hi") "gpt-4"
      = Except.ok 24 := by
    rw [nt_gpt4, nt_gpt4_0314]
    simp [sum_messages, build_messages, encLen]
    decide
  exact ⟨h1, rfl,
    c10_non_atomic_failure encLen apiDown ⟨"gpt-4", 5, 99⟩ "hi" "sys" 24 h1 rfl⟩
